import Mathlib

/-!
Verification of the Aillio Bullet R1 roaster driver (artisanlib aillio):
a shallow embedding of the frame codec, the poll-cycle canary guard, the
bounded mode-wait loop, the actuator step controller, and the USB transfer
completion dispatch, together with theorems settling the specification
claims about them.

Conventions of the embedding:
* a byte buffer or command packet is a `List Nat` of values below 256;
* machine integers stay `Nat`/`Int` (cache fields are `Int` because the
  initial sentinel containers store `-1`);
* code that raises an exception returns `Except`/`Option`;
* the event-driven completion chains are modelled by the list of packets
  the chain submits, in submission order.
-/

namespace Artisan

/-- A raw packet or reply buffer: a list of bytes, each a `Nat` below 256. -/
abbrev Packet := List Nat

/-- Operating-mode code `BulletR1.MODE_OFF`. -/
def MODE_OFF : Int := 0x0

/-- Operating-mode code `BulletR1.MODE_PREHEATING`. -/
def MODE_PREHEATING : Int := 0x2

/-- Operating-mode code `BulletR1.MODE_LOAD_BEANS`. -/
def MODE_LOAD_BEANS : Int := 0x4

/-- Operating-mode code `BulletR1.MODE_ROASTING`. -/
def MODE_ROASTING : Int := 0x6

/-- Operating-mode code `BulletR1.MODE_COOLING`. -/
def MODE_COOLING : Int := 0x8

/-- Operating-mode code `BulletR1.MODE_SHUT_DOWN`. -/
def MODE_SHUT_DOWN : Int := 0x9

/-- Modes in which the fan level may be adjusted (`BulletR1.FAN_SPEED_MODES`). -/
def FAN_SPEED_MODES : List Int := [ MODE_ROASTING, MODE_COOLING ]

/-- Modes in which the drum level may be adjusted (`BulletR1.DRUM_SPEED_MODES`). -/
def DRUM_SPEED_MODES : List Int := [ MODE_ROASTING, MODE_COOLING ]

/-- Relative step packet `BulletR1.FAN_DOWN_PACKET`. -/
def FAN_DOWN_PACKET : Packet := [0x31, 0x02, 0xaa, 0xaa]

/-- Relative step packet `BulletR1.FAN_UP_PACKET`. -/
def FAN_UP_PACKET : Packet := [0x31, 0x01, 0xaa, 0xaa]

/-- Relative step packet `BulletR1.HEATER_DOWN_PACKET`. -/
def HEATER_DOWN_PACKET : Packet := [0x34, 0x02, 0xaa, 0xaa]

/-- Relative step packet `BulletR1.HEATER_UP_PACKET`. -/
def HEATER_UP_PACKET : Packet := [0x34, 0x01, 0xaa, 0xaa]

/-- A decoded Stats frame (the named fields of `BulletR1.statsStruct`).
The three temperature fields are 32-bit IEEE-754 values on the wire; we
keep their raw little-endian 32-bit patterns, since every claim about them
concerns only the byte layout.  Fields are `Int` because the initial
sentinel container of `BulletR1.__init__` stores `-1` in every field.  The
opaque reserved regions parsed by construct are dropped. -/
structure StatsFrame where
  beanTemperature : Int
  ror : Int
  drumTemperature : Int
  fanSpeedLevel : Int
  heaterPowerLevel : Int
  drumSpeedLevel : Int
  index : Int
  canary : Int
deriving DecidableEq, Repr

/-- The slice of the latest Status container that the driver logic reads:
only `mode`, initialised to the sentinel `-1`. -/
structure StatusCache where
  mode : Int
deriving DecidableEq, Repr

/-- The mutable session state of `BulletR1` used by the claims: the two
latest-frame caches. -/
structure BulletState where
  latestStats : StatsFrame
  latestStatus : StatusCache
deriving DecidableEq, Repr

/-- The sentinel Stats container installed by `BulletR1.__init__`. -/
def initialStats : StatsFrame :=
  { beanTemperature := -1, ror := -1, drumTemperature := -1,
    fanSpeedLevel := -1, heaterPowerLevel := -1, drumSpeedLevel := -1,
    index := -1, canary := -1 }

/-- The session state right after `BulletR1.__init__`. -/
def initialBulletState : BulletState :=
  { latestStats := initialStats, latestStatus := { mode := -1 } }

/-- Little-endian 16-bit value from two bytes. -/
def le16 (b0 b1 : Nat) : Nat := b0 + 256 * b1

/-- Little-endian 32-bit value from four bytes. -/
def le32 (b0 b1 b2 b3 : Nat) : Nat := b0 + 256 * (b1 + 256 * (b2 + 256 * b3))

/-- The canary value marking a valid Stats frame (`stats.canary == 2868903935`). -/
def CANARY_VALID : Int := 2868903935

/-- Embedding of `BulletR1.statsStruct.parse` on a 64-byte Stats reply; any other length
is a codec error (`none`).  All multi-byte fields are little-endian and the
offsets follow the construct field order: f32 at 0, 4 and 8, then 14
reserved bytes, u8 levels at 26, 27 and 28, a reserved u8 at 29, the u16
index at 30, 28 reserved bytes, and the u32 canary at 60. -/
def decodeStats (buf : List Nat) : Option StatsFrame :=
  if buf.length = 64 then
    some
      { beanTemperature :=
          Int.ofNat (le32 (buf.getD 0 0) (buf.getD 1 0) (buf.getD 2 0) (buf.getD 3 0))
        ror :=
          Int.ofNat (le32 (buf.getD 4 0) (buf.getD 5 0) (buf.getD 6 0) (buf.getD 7 0))
        drumTemperature :=
          Int.ofNat (le32 (buf.getD 8 0) (buf.getD 9 0) (buf.getD 10 0) (buf.getD 11 0))
        fanSpeedLevel := Int.ofNat (buf.getD 26 0)
        heaterPowerLevel := Int.ofNat (buf.getD 27 0)
        drumSpeedLevel := Int.ofNat (buf.getD 28 0)
        index := Int.ofNat (le16 (buf.getD 30 0) (buf.getD 31 0))
        canary :=
          Int.ofNat (le32 (buf.getD 60 0) (buf.getD 61 0) (buf.getD 62 0) (buf.getD 63 0)) }
  else none

/-- Outcome of one `statsReadReady` callback: the resulting session state,
and whether the poll chain continues with a `requestStatus` round trip. -/
structure StatsReadOutcome where
  state : BulletState
  chainContinues : Bool
deriving DecidableEq, Repr

/-- Embedding of `BulletR1.statsReadReady`: decode the reply; when the canary equals
2868903935 overwrite the whole Stats cache and continue the poll chain
(`chainContinues = true`); otherwise leave the cache untouched and let the
chain stop, raising no error.  `none` only for a malformed buffer length. -/
def statsReadReady (s : BulletState) (buf : List Nat) : Option StatsReadOutcome :=
  (decodeStats buf).map fun stats =>
    if stats.canary = CANARY_VALID then
      { state := { s with latestStats := stats }, chainContinues := true }
    else
      { state := s, chainContinues := false }

/-- Result of the bounded wait loop `BulletR1.waitUntil`: either the
condition became true, or the loop raised `ChangeTimeout` after taking
`samplesTaken` stats samples. -/
inductive WaitOutcome where
  | finished (s : BulletState)
  | changeTimeout (samplesTaken : Nat)
deriving DecidableEq, Repr

/-- The loop body of `BulletR1.waitUntil`.  `sampleFn` abstracts what one
`getOneStats` round trip does to the session state; `timesStatsRequested`
is the retry counter of the source; `fuel` bounds the unrolling (`none`
means the loop was still running after `fuel` iterations).  Each iteration
checks the condition, takes one sample, increments the counter, and raises
`ChangeTimeout` as soon as the counter exceeds 8. -/
def waitUntilGo (cond : BulletState → Bool) (sampleFn : BulletState → BulletState) :
    Nat → BulletState → Nat → Option WaitOutcome
  | 0, _, _ => none
  | fuel + 1, s, timesStatsRequested =>
    if cond s then some (WaitOutcome.finished s)
    else
      let s2 := sampleFn s
      let t2 := timesStatsRequested + 1
      if t2 > 8 then some (WaitOutcome.changeTimeout t2)
      else waitUntilGo cond sampleFn fuel s2 t2

/-- Embedding of `BulletR1.waitUntil`: run the wait loop with the retry counter starting
at 0. -/
def waitUntil (cond : BulletState → Bool) (sampleFn : BulletState → BulletState)
    (fuel : Nat) (s : BulletState) : Option WaitOutcome :=
  waitUntilGo cond sampleFn fuel s 0

/-- The state of a `PacketRepeatWriter`: it writes `packet` until
`timesWritten` reaches `timesToWrite`, each next write being submitted from
the completion callback of the previous one (`packetWritten` increments the
count and calls `write` again). -/
structure PacketRepeatWriter where
  packet : Packet
  timesToWrite : Int
  timesWritten : Int
deriving DecidableEq, Repr

/-- The `PacketRepeatWriter.write` / `packetWritten` completion chain,
returning the ordered list of packets the whole chain submits. -/
def PacketRepeatWriter.write (w : PacketRepeatWriter) : List Packet :=
  if _h : w.timesWritten ≥ w.timesToWrite then []
  else w.packet :: PacketRepeatWriter.write
    { w with timesWritten := w.timesWritten + 1 }
termination_by (w.timesToWrite - w.timesWritten).toNat
decreasing_by simp_wf; omega

/-- Embedding of `BulletR1.setToTargetBySteps`: choose the step direction and repeat
count from the cached current level, then fire the chain of step packets.
Returns the packets written, in order. -/
def setToTargetBySteps (target current : Int)
    (decreasePacket increasePacket : Packet) : List Packet :=
  if target < current then
    PacketRepeatWriter.write
      { packet := decreasePacket, timesToWrite := current - target, timesWritten := 0 }
  else
    PacketRepeatWriter.write
      { packet := increasePacket, timesToWrite := target - current, timesWritten := 0 }

/-- Embedding of `BulletR1.setFanSpeedLevel`: validate the range (the source message
really says "between 0 and 15"), silently return outside the eligible
modes, otherwise converge by relative fan steps.  The result is the list
of packets submitted, or the `ValueError` message. -/
def setFanSpeedLevel (s : BulletState) (level : Int) : Except String (List Packet) :=
  if level < 0 ∨ level > 12 then
    Except.error "setFanSpeedLevel level value must be between 0 and 15 inclusive"
  else if s.latestStatus.mode ∈ FAN_SPEED_MODES then
    Except.ok (setToTargetBySteps level s.latestStats.fanSpeedLevel
      FAN_DOWN_PACKET FAN_UP_PACKET)
  else
    Except.ok []

/-- Embedding of `BulletR1.setHeaterPowerLevel`: validate the range, silently return
unless the mode is ROASTING, otherwise converge by relative heater steps. -/
def setHeaterPowerLevel (s : BulletState) (level : Int) : Except String (List Packet) :=
  if level < 0 ∨ level > 9 then
    Except.error "setHeaterPowerLevel level value must be between 0 and 9 inclusive"
  else if s.latestStatus.mode = MODE_ROASTING then
    Except.ok (setToTargetBySteps level s.latestStats.heaterPowerLevel
      HEATER_DOWN_PACKET HEATER_UP_PACKET)
  else
    Except.ok []

/-- Embedding of `BulletR1.setDrumSpeedLevel`: validate the range, silently return
outside the eligible modes, otherwise write one absolute drum-set packet
`[0x32, 0x01, level, 0x00]`. -/
def setDrumSpeedLevel (s : BulletState) (level : Int) : Except String (List Packet) :=
  if level < 1 ∨ level > 9 then
    Except.error "setDrumSpeedLevel level value must be between 1 and 9 inclusive"
  else if s.latestStatus.mode ∈ DRUM_SPEED_MODES then
    Except.ok [ [0x32, 0x01, level.toNat, 0x00] ]
  else
    Except.ok []

/-- Embedding of `BulletR1.drumSpeedDown`: request the level one above the cached one. -/
def drumSpeedDown (s : BulletState) : Except String (List Packet) :=
  setDrumSpeedLevel s (s.latestStats.drumSpeedLevel + 1)

/-- Embedding of `BulletR1.drumSpeedUp`: request the level one below the cached one. -/
def drumSpeedUp (s : BulletState) : Except String (List Packet) :=
  setDrumSpeedLevel s (s.latestStats.drumSpeedLevel - 1)

/-- The transport-reported status of a finished transfer (the libusb
transfer status taxonomy). -/
inductive TransferStatus where
  | completed
  | error
  | timedOut
  | cancelled
  | stall
  | noDevice
  | overflow
deriving DecidableEq, Repr

/-- Embedding of `UsbTransferException.statusCodeToString`: the human-readable entry for
each status code. -/
def statusCodeToString : TransferStatus → String
  | TransferStatus.completed => "completed"
  | TransferStatus.error => "error"
  | TransferStatus.timedOut => "timed out"
  | TransferStatus.cancelled => "cancelled"
  | TransferStatus.stall => "stalled"
  | TransferStatus.noDevice => "no device"
  | TransferStatus.overflow => "overflow"

/-- One transfer as seen by `transferCompleted`: its diagnostic label, its
transport-reported status, and whether a completion callback was attached
(`writePacket` submits some transfers with `callback = None`). -/
structure Transfer where
  errorMsg : String
  status : TransferStatus
  hasCallback : Bool
deriving DecidableEq, Repr

/-- Outcome of `BulletR1.transferCompleted`: either a normal return with
the remaining outstanding list and whether the callback ran, or a raised
`UsbTransferException` carrying the remaining list and the message. -/
inductive TransferCompletedOutcome where
  | ok (transferList : List Transfer) (callbackInvoked : Bool)
  | usbTransferExn (transferList : List Transfer) (message : String)
deriving DecidableEq, Repr

/-- The outstanding-transfer list after a `transferCompleted` call. -/
def TransferCompletedOutcome.transferListAfter : TransferCompletedOutcome → List Transfer
  | TransferCompletedOutcome.ok l _ => l
  | TransferCompletedOutcome.usbTransferExn l _ => l

/-- Embedding of `BulletR1.transferCompleted`: remove the transfer from the outstanding
list (Python `list.remove`, first occurrence), then raise
`UsbTransferException` when the status is not `completed`, else invoke the
callback when the transfer has one. -/
def transferCompleted (transferList : List Transfer) (t : Transfer) :
    TransferCompletedOutcome :=
  let remaining := transferList.erase t
  if t.status ≠ TransferStatus.completed then
    TransferCompletedOutcome.usbTransferExn remaining
      ("USB Transfer failed during " ++ t.errorMsg ++ ": " ++ statusCodeToString t.status)
  else
    TransferCompletedOutcome.ok remaining t.hasCallback

/-- Attribute names of the initial `latestStats` Container of
`AillioR1.__init__`. -/
def aillioInitialStatsFields : List String :=
  ["beanTemperature", "ror", "drumTemperature", "fan", "power", "drumSpeed",
    "index", "canary"]

/-- Attribute names of a Container produced by parsing `AillioR1.statsStruct`. -/
def aillioParsedStatsFields : List String :=
  ["beanTemperature", "ror", "drumTemperature", "unknown1", "fan", "power",
    "drumSpeed", "unknown2", "index", "unknown3", "canary"]

/-- A construct Container abstracted to its list of attribute names.  The
claim about `modeAndDrumSpeed` concerns only whether the attribute `drum`
exists: attribute access on a Container raises `AttributeError` exactly
when the name is absent, so the attribute values are irrelevant and not
tracked. -/
structure AillioStatsContainer where
  fields : List String
deriving DecidableEq, Repr

/-- Embedding of `AillioR1.statsStruct.parse` at the level of attribute names: a
64-byte reply yields a Container with the parsed field names, any other
length is a codec error. -/
def aillioDecodeStats (buf : List Nat) : Option AillioStatsContainer :=
  if buf.length = 64 then some { fields := aillioParsedStatsFields } else none

/-- The `latestStats` containers reachable in an `AillioR1` session: the
initial sentinel container, or the result of parsing any 64-byte Stats
reply (`AillioR1.statsReadReady` only ever stores `statsStruct.parse`
results into the cache). -/
inductive AillioStatsReachable : AillioStatsContainer → Prop
  | init : AillioStatsReachable { fields := aillioInitialStatsFields }
  | decoded (buf : List Nat) (c : AillioStatsContainer) :
      aillioDecodeStats buf = some c → AillioStatsReachable c

/-- Embedding of `AillioR1.modeAndDrumSpeed`: the source reads `self.latestStats.drum`; the lookup
succeeds only when the Container defines that attribute name, otherwise it
raises `AttributeError`.  (The success value is untracked: reachable
containers never define `drum`.) -/
def modeAndDrumSpeed (stats : AillioStatsContainer) : Except String Unit :=
  if "drum" ∈ stats.fields then Except.ok ()
  else Except.error "AttributeError: Container has no attribute drum"

/-! ## Helper lemmas -/

/-- The completion chain of a `PacketRepeatWriter` submits exactly the
outstanding number of copies of its packet. -/
theorem PacketRepeatWriter.write_eq_replicate (p : Packet) (total written : Int) :
    PacketRepeatWriter.write
        { packet := p, timesToWrite := total, timesWritten := written } =
      List.replicate (total - written).toNat p := by
  generalize hn : (total - written).toNat = n
  induction n generalizing written with
  | zero =>
    rw [PacketRepeatWriter.write]
    have hge : written ≥ total := by omega
    simp [hge]
  | succ k ih =>
    rw [PacketRepeatWriter.write]
    have hlt : ¬ written ≥ total := by omega
    rw [dif_neg hlt]
    rw [ih (written + 1) (by omega)]
    rfl

/-- The function `setToTargetBySteps` submits `|target - current|` copies of the step
packet for the computed direction. -/
theorem setToTargetBySteps_eq (target current : Int) (dPacket iPacket : Packet) :
    setToTargetBySteps target current dPacket iPacket =
      if target < current then List.replicate (current - target).toNat dPacket
      else List.replicate (target - current).toNat iPacket := by
  unfold setToTargetBySteps
  by_cases h : target < current
  · rw [if_pos h, if_pos h, PacketRepeatWriter.write_eq_replicate]
    norm_num
  · rw [if_neg h, if_neg h, PacketRepeatWriter.write_eq_replicate]
    norm_num

/-- Erasing a present element removes exactly one copy of it. -/
theorem count_erase_self_of_mem (t : Transfer) (lst : List Transfer) (h : t ∈ lst) :
    (lst.erase t).count t = lst.count t - 1 := by
  have hp := List.perm_cons_erase h
  have hc := hp.count_eq t
  rw [List.count_cons_self] at hc
  omega

/-! ## Claim theorems -/

/-- C1: a Stats reply whose decoded canary differs from 2868903935 leaves
the cached latest Stats frame unchanged and stops the poll chain without
raising an error, while a matching canary overwrites the cache wholesale
with the decoded frame and continues the chain. -/
theorem statsReadReady_canary_guard (s : BulletState) (buf : List Nat)
    (f : StatsFrame) (hdec : decodeStats buf = some f) :
    (f.canary ≠ CANARY_VALID →
      statsReadReady s buf = some { state := s, chainContinues := false }) ∧
    (f.canary = CANARY_VALID →
      statsReadReady s buf =
        some { state := { s with latestStats := f }, chainContinues := true }) := by
  constructor <;> intro h <;> simp [statsReadReady, hdec, h]

/-- Witness for C1: the all-zero 64-byte reply decodes with canary 0, so
the initial cache survives and the chain stops. -/
theorem statsReadReady_canary_guard_witness :
    statsReadReady initialBulletState (List.replicate 64 0) =
      some { state := initialBulletState, chainContinues := false } :=
  (statsReadReady_canary_guard initialBulletState (List.replicate 64 0)
    { beanTemperature := 0, ror := 0, drumTemperature := 0, fanSpeedLevel := 0,
      heaterPowerLevel := 0, drumSpeedLevel := 0, index := 0, canary := 0 }
    (by decide)).1 (by decide)

/-- C2 as stated is false: with a condition that never becomes true, the
wait loop raises its change-timeout only after the ninth stats sample (the
counter must exceed 8), not after the eighth. -/
theorem waitUntil_eighth_sample_counterexample :
    waitUntil (fun _ => false) (fun s => s) 100 initialBulletState =
        some (WaitOutcome.changeTimeout 9) ∧
      some (WaitOutcome.changeTimeout 9) ≠ some (WaitOutcome.changeTimeout 8) :=
  ⟨rfl, by decide⟩

/-- Loop unrolling for a never-true condition: starting from counter `t`
with `t + n = 9` and at least `n ≥ 1` iterations of fuel left, the loop
raises the change-timeout with the counter at 9. -/
theorem waitUntilGo_never_true (cond : BulletState → Bool)
    (sampleFn : BulletState → BulletState) (hcond : ∀ x, cond x = false) :
    ∀ (n k t : Nat) (s : BulletState), t + n = 9 → 1 ≤ n →
      waitUntilGo cond sampleFn (n + k) s t =
        some (WaitOutcome.changeTimeout 9) := by
  intro n
  induction n with
  | zero => omega
  | succ m ih =>
    intro k t s ht _
    rw [show m + 1 + k = (m + k) + 1 by omega]
    rw [waitUntilGo]
    rw [hcond s]
    simp only [Bool.false_eq_true, if_false]
    by_cases h9 : t + 1 > 8
    · rw [if_pos h9]
      have : t + 1 = 9 := by omega
      rw [this]
    · rw [if_neg h9]
      exact ih k (t + 1) (sampleFn s) (by omega) (by omega)

/-- C2 (amended): against a device whose observed condition never becomes
true, `waitUntil` raises the change-timeout after exactly nine
non-progressing samples — the raise fires when the retry counter exceeds
8, i.e. on the ninth sample. -/
theorem waitUntil_timeout_after_ninth_sample (cond : BulletState → Bool)
    (sampleFn : BulletState → BulletState) (fuel : Nat) (s : BulletState)
    (hcond : ∀ x, cond x = false) (hfuel : 9 ≤ fuel) :
    waitUntil cond sampleFn fuel s = some (WaitOutcome.changeTimeout 9) := by
  obtain ⟨k, rfl⟩ : ∃ k, fuel = 9 + k := ⟨fuel - 9, by omega⟩
  unfold waitUntil
  exact waitUntilGo_never_true cond sampleFn hcond 9 k 0 s rfl (by omega)

/-- Witness for C2 (amended): a concrete never-progressing run with fuel 20
times out with the counter at 9. -/
theorem waitUntil_timeout_after_ninth_sample_witness :
    waitUntil (fun _ => false) id 20 initialBulletState =
      some (WaitOutcome.changeTimeout 9) :=
  waitUntil_timeout_after_ninth_sample (fun _ => false) id 20 initialBulletState
    (fun _ => rfl) (by decide)

/-- A concrete session state in ROASTING mode with cached fan level 5,
heater level 2 and drum level 3 (as after a valid Stats/Status pair). -/
def roastingState : BulletState :=
  { latestStats :=
      { beanTemperature := 200, ror := 7, drumTemperature := 210,
        fanSpeedLevel := 5, heaterPowerLevel := 2, drumSpeedLevel := 3,
        index := 40, canary := CANARY_VALID },
    latestStatus := { mode := MODE_ROASTING } }

/-- A concrete session state still in OFF mode. -/
def offState : BulletState :=
  { latestStats :=
      { beanTemperature := 20, ror := 0, drumTemperature := 20,
        fanSpeedLevel := 5, heaterPowerLevel := 2, drumSpeedLevel := 3,
        index := 11, canary := CANARY_VALID },
    latestStatus := { mode := MODE_OFF } }

/-- C3 as stated is false for the drum: in ROASTING mode with cached drum
level 3, requesting level 7 submits one absolute drum-set packet
`[0x32, 0x01, 7, 0x00]` — a single command rather than the |7 - 3| = 4
relative steps the claim predicts, and not one of the fixed down/up step
byte-pairs. -/
theorem setDrumSpeedLevel_steps_counterexample :
    setDrumSpeedLevel roastingState 7 = Except.ok [ [0x32, 0x01, 7, 0x00] ] ∧
    ([ [0x32, 0x01, 7, 0x00] ] : List Packet).length ≠ ((7 : Int) - 3).natAbs ∧
    [0x32, 0x01, 7, 0x00] ∉
      [ FAN_DOWN_PACKET, FAN_UP_PACKET, HEATER_DOWN_PACKET, HEATER_UP_PACKET ] := by
  exact ⟨rfl, by decide, by decide⟩

/-- C3 (amended): for every in-range target level and eligible mode, the
drum setter submits exactly one absolute drum-set-level packet
`[0x32, 0x01, level, 0x00]`; the drum is not driven by relative steps. -/
theorem setDrumSpeedLevel_single_absolute_packet (s : BulletState) (level : Int)
    (h1 : 1 ≤ level) (h2 : level ≤ 9)
    (hm : s.latestStatus.mode ∈ DRUM_SPEED_MODES) :
    setDrumSpeedLevel s level = Except.ok [ [0x32, 0x01, level.toNat, 0x00] ] := by
  unfold setDrumSpeedLevel
  rw [if_neg (by omega), if_pos hm]

/-- Witness for C3 (amended): requesting drum level 5 while ROASTING
submits the single packet `[0x32, 0x01, 5, 0x00]`. -/
theorem setDrumSpeedLevel_single_absolute_packet_witness :
    setDrumSpeedLevel roastingState 5 = Except.ok [ [0x32, 0x01, 5, 0x00] ] :=
  setDrumSpeedLevel_single_absolute_packet roastingState 5 (by decide) (by decide)
    (by decide)

/-- C4: for in-range target levels, a cached mode outside the eligible set
of an actuator makes its setter return without error and submit zero write
transfers. -/
theorem ineligible_mode_silent_noop (s : BulletState)
    (fanLevel heaterLevel drumLevel : Int)
    (hf : 0 ≤ fanLevel ∧ fanLevel ≤ 12)
    (hh : 0 ≤ heaterLevel ∧ heaterLevel ≤ 9)
    (hd : 1 ≤ drumLevel ∧ drumLevel ≤ 9) :
    (s.latestStatus.mode ∉ FAN_SPEED_MODES →
      setFanSpeedLevel s fanLevel = Except.ok []) ∧
    (s.latestStatus.mode ≠ MODE_ROASTING →
      setHeaterPowerLevel s heaterLevel = Except.ok []) ∧
    (s.latestStatus.mode ∉ DRUM_SPEED_MODES →
      setDrumSpeedLevel s drumLevel = Except.ok []) := by
  refine ⟨fun hm => ?_, fun hm => ?_, fun hm => ?_⟩
  · unfold setFanSpeedLevel
    rw [if_neg (by omega), if_neg hm]
  · unfold setHeaterPowerLevel
    rw [if_neg (by omega), if_neg hm]
  · unfold setDrumSpeedLevel
    rw [if_neg (by omega), if_neg hm]

/-- Witness for C4: in OFF mode all three in-range setter calls are silent
no-ops. -/
theorem ineligible_mode_silent_noop_witness :
    setFanSpeedLevel offState 8 = Except.ok [] ∧
    setHeaterPowerLevel offState 5 = Except.ok [] ∧
    setDrumSpeedLevel offState 4 = Except.ok [] := by
  have h := ineligible_mode_silent_noop offState 8 5 4 (by decide) (by decide)
    (by decide)
  exact ⟨h.1 (by decide), h.2.1 (by decide), h.2.2 (by decide)⟩

/-- C5: an out-of-range level makes the corresponding setter raise its
`ValueError` before any write transfer is submitted, in every session
state. -/
theorem out_of_range_validation_error (s : BulletState)
    (fanLevel heaterLevel drumLevel : Int)
    (hf : fanLevel < 0 ∨ 12 < fanLevel)
    (hh : heaterLevel < 0 ∨ 9 < heaterLevel)
    (hd : drumLevel < 1 ∨ 9 < drumLevel) :
    setFanSpeedLevel s fanLevel =
      Except.error "setFanSpeedLevel level value must be between 0 and 15 inclusive" ∧
    setHeaterPowerLevel s heaterLevel =
      Except.error "setHeaterPowerLevel level value must be between 0 and 9 inclusive" ∧
    setDrumSpeedLevel s drumLevel =
      Except.error "setDrumSpeedLevel level value must be between 1 and 9 inclusive" := by
  refine ⟨?_, ?_, ?_⟩
  · unfold setFanSpeedLevel
    rw [if_pos (by omega)]
  · unfold setHeaterPowerLevel
    rw [if_pos (by omega)]
  · unfold setDrumSpeedLevel
    rw [if_pos (by omega)]

/-- Witness for C5: `setFanSpeedLevel 13`, `setHeaterPowerLevel 10` and
`setDrumSpeedLevel 0` all fail validation even while ROASTING. -/
theorem out_of_range_validation_error_witness :
    setFanSpeedLevel roastingState 13 =
      Except.error "setFanSpeedLevel level value must be between 0 and 15 inclusive" ∧
    setHeaterPowerLevel roastingState 10 =
      Except.error "setHeaterPowerLevel level value must be between 0 and 9 inclusive" ∧
    setDrumSpeedLevel roastingState 0 =
      Except.error "setDrumSpeedLevel level value must be between 1 and 9 inclusive" :=
  out_of_range_validation_error roastingState 13 10 0 (by decide) (by decide)
    (by decide)

/-- C6: with cached heater level 2 and mode ROASTING, requesting heater
level 5 submits exactly three heater-up packets (each next one from the
previous completion callback of the repeat writer) and zero heater-down
packets. -/
theorem setHeaterPowerLevel_scenario_three_ups :
    setHeaterPowerLevel roastingState 5 =
      Except.ok [ HEATER_UP_PACKET, HEATER_UP_PACKET, HEATER_UP_PACKET ] ∧
    ([ HEATER_UP_PACKET, HEATER_UP_PACKET, HEATER_UP_PACKET ] : List Packet).count
      HEATER_DOWN_PACKET = 0 := by
  constructor
  · unfold setHeaterPowerLevel
    rw [if_neg (by decide), if_pos (by decide)]
    rw [setToTargetBySteps_eq]
    rfl
  · decide

/-- C8: every completion event removes the finished transfer from the
outstanding list exactly once; a `completed` status returns normally and
invokes the completion callback (when the transfer carries one), while any
other status raises `UsbTransferException` carrying the operation label
and the human-readable taxonomy entry, without invoking the callback. -/
theorem transferCompleted_spec (lst : List Transfer) (t : Transfer)
    (hmem : t ∈ lst) :
    (transferCompleted lst t).transferListAfter.count t = lst.count t - 1 ∧
    (t.status = TransferStatus.completed →
      transferCompleted lst t =
        TransferCompletedOutcome.ok (lst.erase t) t.hasCallback) ∧
    (t.status ≠ TransferStatus.completed →
      transferCompleted lst t =
        TransferCompletedOutcome.usbTransferExn (lst.erase t)
          ("USB Transfer failed during " ++ t.errorMsg ++ ": " ++
            statusCodeToString t.status) ∧
      statusCodeToString t.status ∈
        ["completed", "error", "timed out", "cancelled", "stalled", "no device",
          "overflow"]) := by
  refine ⟨?_, fun hok => ?_, fun hexn => ?_⟩
  · have herase := count_erase_self_of_mem t lst hmem
    unfold transferCompleted TransferCompletedOutcome.transferListAfter
    by_cases h : t.status = TransferStatus.completed
    · simp only [h, ne_eq, not_true_eq_false, if_false, ite_false]
      exact herase
    · simp only [ne_eq, h, not_false_eq_true, if_true, ite_true]
      exact herase
  · unfold transferCompleted
    simp [hok]
  · refine ⟨?_, ?_⟩
    · unfold transferCompleted
      simp [hexn]
    · cases t.status <;> simp [statusCodeToString]

/-- A concrete stalled read transfer for the C8 witness. -/
def stalledTransfer : Transfer :=
  { errorMsg := "statsRead", status := TransferStatus.stall, hasCallback := true }

/-- Witness for C8: dispatching the stalled transfer removes its only copy
from a singleton outstanding list. -/
theorem transferCompleted_spec_witness :
    (transferCompleted [ stalledTransfer ] stalledTransfer).transferListAfter.count
        stalledTransfer = ([ stalledTransfer ] : List Transfer).count stalledTransfer - 1 :=
  (transferCompleted_spec [ stalledTransfer ] stalledTransfer (by decide)).1

/-- C9: in an eligible mode and with the resulting levels in range,
`drumSpeedDown` requests the drum level one above the cached one and
`drumSpeedUp` requests the level one below it — the opposite of what the
method names say. -/
theorem drumSpeed_direction_inverted (s : BulletState)
    (h2 : 2 ≤ s.latestStats.drumSpeedLevel)
    (h8 : s.latestStats.drumSpeedLevel ≤ 8)
    (hm : s.latestStatus.mode ∈ DRUM_SPEED_MODES) :
    drumSpeedDown s =
      Except.ok [ [0x32, 0x01, (s.latestStats.drumSpeedLevel + 1).toNat, 0x00] ] ∧
    drumSpeedUp s =
      Except.ok [ [0x32, 0x01, (s.latestStats.drumSpeedLevel - 1).toNat, 0x00] ] := by
  unfold drumSpeedDown drumSpeedUp setDrumSpeedLevel
  constructor <;> rw [if_neg (by omega), if_pos hm]

/-- Witness for C9: at cached drum level 3 while ROASTING, `drumSpeedDown`
requests level 4 and `drumSpeedUp` requests level 2. -/
theorem drumSpeed_direction_inverted_witness :
    drumSpeedDown roastingState = Except.ok [ [0x32, 0x01, 4, 0x00] ] ∧
    drumSpeedUp roastingState = Except.ok [ [0x32, 0x01, 2, 0x00] ] :=
  drumSpeed_direction_inverted roastingState (by decide) (by decide) (by decide)

/-- C10: in every reachable `AillioR1` session state — the initial
sentinel container or any decoded Stats frame — `modeAndDrumSpeed` raises
`AttributeError`, because no Stats container ever defines an attribute
named `drum` (only `drumSpeed`). -/
theorem modeAndDrumSpeed_attribute_error (c : AillioStatsContainer)
    (h : AillioStatsReachable c) :
    modeAndDrumSpeed c =
      Except.error "AttributeError: Container has no attribute drum" := by
  cases h with
  | init => rfl
  | decoded buf c hdec =>
    have hc : c = { fields := aillioParsedStatsFields } := by
      unfold aillioDecodeStats at hdec
      by_cases hb : buf.length = 64
      · rw [if_pos hb] at hdec
        exact (Option.some_inj.mp hdec).symm
      · rw [if_neg hb] at hdec
        cases hdec
    rw [hc]
    rfl

/-- Witness for C10: the initial sentinel container already lacks the
`drum` attribute. -/
theorem modeAndDrumSpeed_attribute_error_witness :
    modeAndDrumSpeed { fields := aillioInitialStatsFields } =
      Except.error "AttributeError: Container has no attribute drum" :=
  modeAndDrumSpeed_attribute_error { fields := aillioInitialStatsFields }
    AillioStatsReachable.init

/-- Little-endian byte encoding of a 16-bit value (spec side). -/
def bytes16 (v : Nat) : List Nat := [v % 256, v / 256 % 256]

/-- Little-endian byte encoding of a 32-bit value (spec side). -/
def bytes32 (v : Nat) : List Nat :=
  [v % 256, v / 256 % 256, v / 65536 % 256, v / 16777216 % 256]

/-- Modelled from the spec offset table of section 4.1: a 64-byte Stats
buffer carrying chosen field values little-endian at the documented
offsets — f32 bit patterns at 0, 4 and 8, the reserved region at 12, the
u8 levels at 26, 27 and 28, a reserved byte at 29, the u16 index at 30,
the reserved region at 32, and the u32 canary at 60. -/
def mkStatsBuffer (bean ror drum : Nat) (reserved1 : List Nat)
    (fan heater drumSp reservedByte idx : Nat) (reserved3 : List Nat)
    (canary : Nat) : List Nat :=
  bytes32 bean ++ bytes32 ror ++ bytes32 drum ++ reserved1 ++
    [fan, heater, drumSp, reservedByte] ++ bytes16 idx ++ reserved3 ++
    bytes32 canary

/-- Decoding a fully explicit 64-byte buffer picks out exactly the bytes at
the documented offsets. -/
theorem decodeStats_explicit (c0 c1 c2 c3 c4 c5 c6 c7 c8 c9 c10 c11 c12 c13
    c14 c15 c16 c17 c18 c19 c20 c21 c22 c23 c24 c25 c26 c27 c28 c29 c30 c31
    c32 c33 c34 c35 c36 c37 c38 c39 c40 c41 c42 c43 c44 c45 c46 c47 c48 c49
    c50 c51 c52 c53 c54 c55 c56 c57 c58 c59 c60 c61 c62 c63 : Nat) :
    decodeStats
        [c0, c1, c2, c3, c4, c5, c6, c7, c8, c9, c10, c11, c12, c13, c14, c15,
          c16, c17, c18, c19, c20, c21, c22, c23, c24, c25, c26, c27, c28, c29,
          c30, c31, c32, c33, c34, c35, c36, c37, c38, c39, c40, c41, c42, c43,
          c44, c45, c46, c47, c48, c49, c50, c51, c52, c53, c54, c55, c56, c57,
          c58, c59, c60, c61, c62, c63] =
      some
        { beanTemperature := Int.ofNat (le32 c0 c1 c2 c3)
          ror := Int.ofNat (le32 c4 c5 c6 c7)
          drumTemperature := Int.ofNat (le32 c8 c9 c10 c11)
          fanSpeedLevel := Int.ofNat c26
          heaterPowerLevel := Int.ofNat c27
          drumSpeedLevel := Int.ofNat c28
          index := Int.ofNat (le16 c30 c31)
          canary := Int.ofNat (le32 c60 c61 c62 c63) } := rfl

/-- C7: decoding a 64-byte Stats buffer built from chosen in-range field
values at the documented little-endian offsets recovers exactly those
values (the f32 temperature fields as their 32-bit bit patterns), for
arbitrary reserved-region bytes; and decoding is a pure function, so the
same buffer always decodes to the identical frame. -/
theorem decodeStats_roundtrip (bean ror drum fan heater drumSp rb idx can : Nat)
    (r1 r3 : List Nat)
    (hbean : bean < 4294967296) (hror : ror < 4294967296)
    (hdrum : drum < 4294967296) (_hfan : fan < 256) (_hheater : heater < 256)
    (_hdrumSp : drumSp < 256) (_hrb : rb < 256) (hidx : idx < 65536)
    (hcan : can < 4294967296) (hr1 : r1.length = 14) (hr3 : r3.length = 28) :
    decodeStats (mkStatsBuffer bean ror drum r1 fan heater drumSp rb idx r3 can) =
      some
        { beanTemperature := Int.ofNat bean
          ror := Int.ofNat ror
          drumTemperature := Int.ofNat drum
          fanSpeedLevel := Int.ofNat fan
          heaterPowerLevel := Int.ofNat heater
          drumSpeedLevel := Int.ofNat drumSp
          index := Int.ofNat idx
          canary := Int.ofNat can } ∧
    (∀ buf : List Nat, decodeStats buf = decodeStats buf) := by
  refine ⟨?_, fun _ => rfl⟩
  rcases r1 with _ | ⟨a0, r1⟩
  · simp at hr1
  rcases r1 with _ | ⟨a1, r1⟩
  · simp at hr1
  rcases r1 with _ | ⟨a2, r1⟩
  · simp at hr1
  rcases r1 with _ | ⟨a3, r1⟩
  · simp at hr1
  rcases r1 with _ | ⟨a4, r1⟩
  · simp at hr1
  rcases r1 with _ | ⟨a5, r1⟩
  · simp at hr1
  rcases r1 with _ | ⟨a6, r1⟩
  · simp at hr1
  rcases r1 with _ | ⟨a7, r1⟩
  · simp at hr1
  rcases r1 with _ | ⟨a8, r1⟩
  · simp at hr1
  rcases r1 with _ | ⟨a9, r1⟩
  · simp at hr1
  rcases r1 with _ | ⟨a10, r1⟩
  · simp at hr1
  rcases r1 with _ | ⟨a11, r1⟩
  · simp at hr1
  rcases r1 with _ | ⟨a12, r1⟩
  · simp at hr1
  rcases r1 with _ | ⟨a13, r1⟩
  · simp at hr1
  have hr1nil : r1 = [] := by
    simp only [List.length_cons] at hr1
    exact List.length_eq_zero.mp (by omega)
  subst hr1nil
  rcases r3 with _ | ⟨b0, r3⟩
  · simp at hr3
  rcases r3 with _ | ⟨b1, r3⟩
  · simp at hr3
  rcases r3 with _ | ⟨b2, r3⟩
  · simp at hr3
  rcases r3 with _ | ⟨b3, r3⟩
  · simp at hr3
  rcases r3 with _ | ⟨b4, r3⟩
  · simp at hr3
  rcases r3 with _ | ⟨b5, r3⟩
  · simp at hr3
  rcases r3 with _ | ⟨b6, r3⟩
  · simp at hr3
  rcases r3 with _ | ⟨b7, r3⟩
  · simp at hr3
  rcases r3 with _ | ⟨b8, r3⟩
  · simp at hr3
  rcases r3 with _ | ⟨b9, r3⟩
  · simp at hr3
  rcases r3 with _ | ⟨b10, r3⟩
  · simp at hr3
  rcases r3 with _ | ⟨b11, r3⟩
  · simp at hr3
  rcases r3 with _ | ⟨b12, r3⟩
  · simp at hr3
  rcases r3 with _ | ⟨b13, r3⟩
  · simp at hr3
  rcases r3 with _ | ⟨b14, r3⟩
  · simp at hr3
  rcases r3 with _ | ⟨b15, r3⟩
  · simp at hr3
  rcases r3 with _ | ⟨b16, r3⟩
  · simp at hr3
  rcases r3 with _ | ⟨b17, r3⟩
  · simp at hr3
  rcases r3 with _ | ⟨b18, r3⟩
  · simp at hr3
  rcases r3 with _ | ⟨b19, r3⟩
  · simp at hr3
  rcases r3 with _ | ⟨b20, r3⟩
  · simp at hr3
  rcases r3 with _ | ⟨b21, r3⟩
  · simp at hr3
  rcases r3 with _ | ⟨b22, r3⟩
  · simp at hr3
  rcases r3 with _ | ⟨b23, r3⟩
  · simp at hr3
  rcases r3 with _ | ⟨b24, r3⟩
  · simp at hr3
  rcases r3 with _ | ⟨b25, r3⟩
  · simp at hr3
  rcases r3 with _ | ⟨b26, r3⟩
  · simp at hr3
  rcases r3 with _ | ⟨b27, r3⟩
  · simp at hr3
  have hr3nil : r3 = [] := by
    simp only [List.length_cons] at hr3
    exact List.length_eq_zero.mp (by omega)
  subst hr3nil
  simp only [mkStatsBuffer, bytes32, bytes16, List.cons_append, List.nil_append]
  rw [decodeStats_explicit]
  refine congrArg some ?_
  simp only [StatsFrame.mk.injEq, le32, le16, Int.ofNat.injEq, and_true, true_and]
  omega

/-- Witness for C7: a concrete buffer with bean pattern 1077936128, index
517 and the valid canary decodes back to exactly those values. -/
theorem decodeStats_roundtrip_witness :
    decodeStats
        (mkStatsBuffer 1077936128 7 210 (List.replicate 14 0) 5 2 3 0 517
          (List.replicate 28 0) 2868903935) =
      some
        { beanTemperature := Int.ofNat 1077936128
          ror := Int.ofNat 7
          drumTemperature := Int.ofNat 210
          fanSpeedLevel := Int.ofNat 5
          heaterPowerLevel := Int.ofNat 2
          drumSpeedLevel := Int.ofNat 3
          index := Int.ofNat 517
          canary := Int.ofNat 2868903935 } ∧
    (∀ buf : List Nat, decodeStats buf = decodeStats buf) :=
  decodeStats_roundtrip 1077936128 7 210 5 2 3 0 517 2868903935
    (List.replicate 14 0) (List.replicate 28 0) (by decide) (by decide)
    (by decide) (by decide) (by decide) (by decide) (by decide)
    (by decide) (by decide) (by decide) (by decide)

end Artisan
